import Mathlib

/-!
Shallow embedding of the ionic-cloud authentication subsystem: the token
contexts over two storage tiers, the Auth service (login, logout,
storeToken, detailed-error extraction), the BasicAuth module and the
loadstart handler of the in-app-browser OAuth redirect flow.

JavaScript string values that may be `undefined` or `null` are modelled
as `Option String` with `none`; JavaScript truthiness on such values is
`jsTruthy`.  Storage backends are total maps from labels to optional
values.  Event emission and HTTP requests are materialised as data so
that theorems can count them.
-/

/-- JavaScript truthiness of a string-or-undefined value: `undefined`,
`null` and the empty string are falsy. -/
def jsTruthy : Option String → Bool
  | none => false
  | some s => !(s == "")

/-- JavaScript `a || b` on string-or-undefined values: yields `a` when
`a` is truthy, otherwise `b` unchanged (even when `b` is falsy). -/
def jsOr (a b : Option String) : Option String :=
  if jsTruthy a then a else b

/-- JavaScript string coercion of a possibly-undefined string, as
performed by the `+` concatenation: `undefined` prints as the string
`undefined`. -/
def jsStr : Option String → String
  | none => "undefined"
  | some s => s

/-- An `IStorage` of strings: key/value backend whose `get` yields
`null`/`undefined` for absent keys. -/
abbrev Storage := String → Option String

/-- `storage.set(k, v)`. -/
def Storage.set (st : Storage) (k v : String) : Storage :=
  fun l => if l = k then some v else st l

/-- `storage.delete(k)`. -/
def Storage.del (st : Storage) (k : String) : Storage :=
  fun l => if l = k then none else st l

/-- A backend holding no values. -/
def Storage.empty : Storage := fun _ => none

/-- `AuthTokenContext`: one storage backend keyed by a fixed label. -/
structure AuthTokenContext where
  storage : Storage
  label : String

/-- `AuthTokenContext.get`. -/
def AuthTokenContext.get (c : AuthTokenContext) : Option String :=
  c.storage c.label

/-- `AuthTokenContext.store`. -/
def AuthTokenContext.store (c : AuthTokenContext) (token : String) : AuthTokenContext :=
  { c with storage := Storage.set c.storage c.label token }

/-- `AuthTokenContext.delete`. -/
def AuthTokenContext.delete (c : AuthTokenContext) : AuthTokenContext :=
  { c with storage := Storage.del c.storage c.label }

/-- The `{permanent}` options bag of `ICombinedTokenContext.store`. -/
structure ICombinedTokenContextStoreOptions where
  permanent : Bool
  deriving DecidableEq

/-- `CombinedAuthTokenContext`: a durable backend (`storage`) and an
ephemeral one (`tempStorage`), both keyed by the same label. -/
structure CombinedAuthTokenContext where
  storage : Storage
  tempStorage : Storage
  label : String

/-- `CombinedAuthTokenContext.get`: reads both tiers and returns
`tempToken || permToken`. -/
def CombinedAuthTokenContext.get (c : CombinedAuthTokenContext) : Option String :=
  let permToken := c.storage c.label
  let tempToken := c.tempStorage c.label
  let token := jsOr tempToken permToken
  token

/-- `CombinedAuthTokenContext.store`: writes the durable tier when
`options.permanent`, else the ephemeral tier. -/
def CombinedAuthTokenContext.store (c : CombinedAuthTokenContext) (token : String)
    (options : ICombinedTokenContextStoreOptions := ⟨true⟩) : CombinedAuthTokenContext :=
  if options.permanent then
    { c with storage := Storage.set c.storage c.label token }
  else
    { c with tempStorage := Storage.set c.tempStorage c.label token }

/-- `CombinedAuthTokenContext.delete`: deletes the label from both
tiers. -/
def CombinedAuthTokenContext.delete (c : CombinedAuthTokenContext) : CombinedAuthTokenContext :=
  { c with storage := Storage.del c.storage c.label,
           tempStorage := Storage.del c.tempStorage c.label }

/-- A combined context over two fresh backends. -/
def CombinedAuthTokenContext.empty (label : String) : CombinedAuthTokenContext :=
  ⟨Storage.empty, Storage.empty, label⟩

/-- One emitted event: its name and the `old`/`new` token payload. -/
structure Emitted where
  name : String
  old : Option String
  new : Option String
  deriving DecidableEq

/-- The single-user record: whether it is persisted, and its loaded
details (cleared on logout). -/
structure UserRec where
  persisted : Bool
  details : Option String
  deriving DecidableEq

/-- The `{remember}` login options bag. -/
structure LoginOptions where
  remember : Bool
  deriving DecidableEq

/-- The mutable state of the Auth service: the in-memory `authToken`
cache, the combined token context, the events emitted so far, and the
user record. -/
structure AuthState where
  authToken : Option String
  tokenContext : CombinedAuthTokenContext
  events : List Emitted
  user : UserRec

/-- `Auth.isAuthenticated`: truthiness of `tokenContext.get()`. -/
def Auth.isAuthenticated (st : AuthState) : Bool :=
  jsTruthy st.tokenContext.get

/-- `Auth.getToken`. -/
def Auth.getToken (st : AuthState) : Option String :=
  st.tokenContext.get

/-- `Auth.storeToken`: records the previous cached token, overwrites the
cache, writes through the combined context with
`permanent = options.remember`, and emits one auth:token-changed
event carrying the old and new values. -/
def Auth.storeToken (st : AuthState) (options : LoginOptions) (token : String) : AuthState :=
  let originalToken := st.authToken
  { st with
    authToken := some token
    tokenContext := st.tokenContext.store token ⟨options.remember⟩
    events := st.events ++ [⟨"auth:token-changed", originalToken, some token⟩] }

/-- `Auth.logout`: deletes the token from the combined context, then
unpersists and clears the user record.  The `authToken` cache and the
event log are untouched. -/
def Auth.logout (st : AuthState) : AuthState :=
  { st with
    tokenContext := st.tokenContext.delete
    user := { persisted := false, details := none } }

/-- The success continuation of `Auth.login`: `storeToken`, then load
the current user record and persist it. -/
def Auth.loginSuccess (st : AuthState) (options : LoginOptions) (token : String)
    (loadedDetails : String) : AuthState :=
  let st1 := Auth.storeToken st options token
  { st1 with user := { persisted := true, details := some loadedDetails } }

/-- The auth-module identifiers of the registry. -/
inductive AuthModuleId
  | basic | custom | twitter | facebook | github | google | instagram | linkedin
  deriving DecidableEq

/-- The authenticate capability of a registered module: credentials in,
a settled token-or-error out (the network interaction is abstracted by
the module result). -/
abbrev AuthModule := List (String × String) → Except String String

/-- How a call to `Auth.login` comes back to the caller: a synchronous
throw, or a returned promise that later rejects or resolves. -/
inductive LoginResult
  | syncThrow (msg : String)
  | promiseRejected (msg : String) (st : AuthState)
  | promiseResolved (st : AuthState)

/-- `Auth.login`: registry lookup (throwing synchronously on a missing
module), then the authenticate step, then the success continuation. -/
def Auth.login (authModules : AuthModuleId → Option AuthModule) (st : AuthState)
    (moduleId : AuthModuleId) (data : List (String × String)) (options : LoginOptions)
    (loadedDetails : String) : LoginResult :=
  match authModules moduleId with
  | none => .syncThrow "Authentication class is invalid or missing:undefined"
  | some context =>
    match context data with
    | .error e => .promiseRejected e st
    | .ok token => .promiseResolved (Auth.loginSuccess st options token loadedDetails)

/-- A `DetailedError` over a list of error-code strings. -/
structure DetailedError where
  message : String
  details : List String
  deriving DecidableEq

/-- One entry of `res.body.error.details`. -/
structure ErrorDetail where
  error_type : Option String
  parameter : Option String
  deriving DecidableEq

/-- The `error` object of a response body. -/
structure JsResError where
  details : Option (List ErrorDetail)

/-- The body of an error response. -/
structure JsResBody where
  error : Option JsResError

/-- A response whose body may be absent. -/
structure JsResponse where
  body : Option JsResBody

/-- How the try-block assignment of `res.body.error.details` goes: a
property access on an undefined level throws inside the try and is
caught, so the variable keeps its initial empty list; a fully present
`res.body.error` path makes the assignment succeed with its final
value — including the undefined value an error object without a details
field yields. -/
inductive DetailsAccess
  | caught
  | assigned (v : Option (List ErrorDetail))
  deriving DecidableEq

/-- The guarded access itself: reading a property of undefined throws
(and is caught), while reading an absent property of a present object
merely yields undefined. -/
def detailsAccess (res : Option JsResponse) : DetailsAccess :=
  match res with
  | none => .caught
  | some r =>
    match r.body with
    | none => .caught
    | some b =>
      match b.error with
      | none => .caught
      | some e => .assigned e.details

/-- How `Auth.getDetailedErrorFromResponse` comes back to its caller:
the structured error, or the uncaught TypeError thrown by the for-loop
bound when the assigned details value is undefined. -/
inductive DetailedErrorResult
  | thrown
  | returned (e : DetailedError)
  deriving DecidableEq

/-- `Auth.getDetailedErrorFromResponse`: collects
`error_type + "_" + parameter` for every detail with a truthy
`error_type`.  When the guarded access is caught, the initial empty
list is iterated; when it assigns undefined, the loop bound
`details.length` throws outside the try/catch. -/
def Auth.getDetailedErrorFromResponse (res : Option JsResponse) : DetailedErrorResult :=
  match detailsAccess res with
  | .caught => .returned ⟨"Error creating user", []⟩
  | .assigned none => .thrown
  | .assigned (some details) =>
    .returned ⟨"Error creating user",
      details.foldl
        (fun errors detail =>
          if jsTruthy detail.error_type then
            errors ++ [jsStr detail.error_type ++ "_" ++ jsStr detail.parameter]
          else errors) []⟩

/-- `BasicLoginCredentials`, with possibly-missing fields. -/
structure BasicLoginCredentials where
  email : Option String
  password : Option String
  deriving DecidableEq

/-- An issued HTTP request: method, path and body pairs. -/
structure HttpRequest where
  method : String
  path : String
  body : List (String × String)
  deriving DecidableEq

/-- The `data` object of a successful login response body. -/
structure BasicResponseData where
  token : Option String
  deriving DecidableEq

/-- The body of a successful login response (`res.body`). -/
structure BasicResponse where
  data : BasicResponseData
  deriving DecidableEq

/-- How `BasicAuth.authenticate` settles. -/
inductive BasicResult
  | rejected (msg : String)
  | rejectedTransport (err : String)
  | resolved (token : Option String)
  deriving DecidableEq

/-- `BasicAuth.authenticate`: field validation, then the credential
POST; the result is the issued request (if any) paired with the settled
outcome, `transport` standing for the `(err, res)` of the `end`
callback. -/
def BasicAuth.authenticate (appId : String) (data : BasicLoginCredentials)
    (transport : Except String BasicResponse) : Option HttpRequest × BasicResult :=
  if !(jsTruthy data.email) || !(jsTruthy data.password) then
    (none, .rejected "email and password are required for basic authentication")
  else
    let req : HttpRequest :=
      ⟨"POST", "/auth/login",
        [("app_id", appId), ("email", jsStr data.email), ("password", jsStr data.password)]⟩
    match transport with
    | .error err => (some req, .rejectedTransport err)
    | .ok res => (some req, .resolved res.data.token)

/-- JavaScript split with a one-character separator, over character
lists: always returns at least one piece. -/
def jsSplitChars (sep : Char) : List Char → List (List Char)
  | [] => [[]]
  | c :: rest =>
    let r := jsSplitChars sep rest
    if c = sep then [] :: r
    else
      match r with
      | [] => [[c]]
      | h :: t => (c :: h) :: t

/-- JavaScript split with a one-character separator, over strings. -/
def jsSplit (sep : Char) (s : String) : List String :=
  (jsSplitChars sep s.data).map String.mk

/-- JavaScript `url.slice(0, 20)`. -/
def jsSlice20 (s : String) : String := String.mk (s.data.take 20)

/-- JavaScript property read on the params object built by the loadstart
handler loop: the last assignment to the key wins; an absent key and an
assigned undefined value both read back as undefined. -/
def jsParamsGet (assignments : List (String × Option String)) (k : String) : Option String :=
  assignments.foldl (fun acc p => if p.1 == k then p.2 else acc) none

/-- How one loadstart event settles the deferred: a thrown TypeError
(`crash`), a rejection with a message, or a resolution with the token
parameter value. -/
inductive LoadStartOutcome
  | crash
  | rejectedMsg (msg : String)
  | resolvedTok (token : Option String)
  deriving DecidableEq

/-- The observable effects of one loadstart event: how many times the
handler removed each listener, how many times it called close(), and
how the deferred settled. -/
structure LoadStartResult where
  removedExit : Nat
  removedLoadError : Nat
  closes : Nat
  outcome : LoadStartOutcome
  deriving DecidableEq

/-- The redirect check `data.url.slice(0, 20) === the expected
origin`. -/
def expectedUrlMatch (url : String) : Bool :=
  jsSlice20 url == "http://auth.ionic.io"

/-- The pre-fragment part of a url (`url.split(hash)[0]`). -/
def preFragment (url : String) : String :=
  (jsSplit '#' url).headD ""

/-- `url.split(hash)[0].split(questionmark)[1]`; `none` models the
JavaScript undefined that makes the following split throw. -/
def queryStringOf (url : String) : Option String :=
  (jsSplit '?' (preFragment url))[1]?

/-- The key/value assignments the handler loop performs on its params
object, in order. -/
def queryAssignments (queryString : String) : List (String × Option String) :=
  (jsSplit '&' queryString).map fun part =>
    let kv := jsSplit '=' part
    (kv.headD "", kv[1]?)

/-- The value of the token query parameter of a url, as the handler
would compute it. -/
def tokenParamOf (url : String) : Option String :=
  match queryStringOf url with
  | none => none
  | some qs => jsParamsGet (queryAssignments qs) "token"

/-- Whether the pre-fragment part of the url carries a query string. -/
def hasQueryString (url : String) : Bool :=
  (queryStringOf url).isSome

/-- One loadstart event of `AuthType.inAppBrowserFlow`, as a function of
the navigated url.  On a matching url with a query string the handler
removes the exit and loaderror listeners once each, calls close() once
and resolves with the token parameter; on a matching url without a
query string the split of undefined throws before any of those lines
run; on a non-matching url it rejects and touches nothing. -/
def onLoadStart (url : String) : LoadStartResult :=
  if expectedUrlMatch url then
    match queryStringOf url with
    | none => ⟨0, 0, 0, .crash⟩
    | some queryString =>
      ⟨1, 1, 1, .resolvedTok (jsParamsGet (queryAssignments queryString) "token")⟩
  else
    ⟨0, 0, 0, .rejectedMsg "Unexpected url in API response"⟩

/-- A fresh Auth service state over empty storages. -/
def emptyAuthState : AuthState :=
  ⟨none, CombinedAuthTokenContext.empty "token", [], ⟨false, none⟩⟩

/-- Deleting a key from a backend twice is the same as deleting it
once. -/
theorem Storage.del_del (s : Storage) (k : String) :
    Storage.del (Storage.del s k) k = Storage.del s k := by
  funext l
  unfold Storage.del
  by_cases h : l = k <;> simp [h]

/-- C2: storeToken records the previous cached token, overwrites the
cache, writes the token through the combined context with
permanent = options.remember, and appends exactly one
auth:token-changed event whose old field is the prior cache and whose
new field is the new token; the login success continuation emits exactly
that one event, so every successful login routes through this path. -/
theorem C2_storeToken (st : AuthState) (options : LoginOptions) (token : String)
    (loadedDetails : String) :
    (Auth.storeToken st options token).authToken = some token ∧
    (Auth.storeToken st options token).tokenContext
      = st.tokenContext.store token ⟨options.remember⟩ ∧
    (Auth.storeToken st options token).events
      = st.events ++ [⟨"auth:token-changed", st.authToken, some token⟩] ∧
    (Auth.loginSuccess st options token loadedDetails).events
      = st.events ++ [⟨"auth:token-changed", st.authToken, some token⟩] ∧
    (Auth.loginSuccess st options token loadedDetails).authToken = some token :=
  ⟨rfl, rfl, rfl, rfl, rfl⟩

/-- C3: for every module identifier that is not registered, Auth.login
throws synchronously (no promise is returned and no asynchronous work
begins). -/
theorem C3_login_unregistered (authModules : AuthModuleId → Option AuthModule)
    (st : AuthState) (moduleId : AuthModuleId) (data : List (String × String))
    (options : LoginOptions) (loadedDetails : String)
    (h : authModules moduleId = none) :
    Auth.login authModules st moduleId data options loadedDetails
      = LoginResult.syncThrow "Authentication class is invalid or missing:undefined" := by
  unfold Auth.login
  rw [h]

/-- C3 witness: an empty registry makes login throw synchronously. -/
theorem C3_login_unregistered_witness :
    Auth.login (fun _ => none) emptyAuthState AuthModuleId.custom [] ⟨true⟩ "user"
      = LoginResult.syncThrow "Authentication class is invalid or missing:undefined" :=
  C3_login_unregistered (fun _ => none) emptyAuthState AuthModuleId.custom [] ⟨true⟩ "user" rfl

/-- C6: storing durably into a fresh context and reading gives the token
back; delete removes the label from both tiers unconditionally, a
subsequent get returns absent, and delete is idempotent. -/
theorem C6_store_delete (label t : String) (c : CombinedAuthTokenContext) :
    ((CombinedAuthTokenContext.empty label).store t ⟨true⟩).get = some t ∧
    c.delete.storage c.label = none ∧
    c.delete.tempStorage c.label = none ∧
    c.delete.get = none ∧
    c.delete.delete = c.delete := by
  refine ⟨?_, ?_, ?_, ?_, ?_⟩
  · simp [CombinedAuthTokenContext.empty, CombinedAuthTokenContext.store,
      CombinedAuthTokenContext.get, Storage.set, Storage.empty, jsOr, jsTruthy]
  · simp [CombinedAuthTokenContext.delete, Storage.del]
  · simp [CombinedAuthTokenContext.delete, Storage.del]
  · simp [CombinedAuthTokenContext.delete, CombinedAuthTokenContext.get, Storage.del,
      jsOr, jsTruthy]
  · simp [CombinedAuthTokenContext.delete, Storage.del_del]

/-- C7: store writes exactly one tier — with permanent true only the
durable backend changes, with permanent false only the ephemeral one;
the label never changes. -/
theorem C7_store_exclusive (c : CombinedAuthTokenContext) (t : String) :
    (c.store t ⟨true⟩).tempStorage = c.tempStorage ∧
    (c.store t ⟨true⟩).storage = Storage.set c.storage c.label t ∧
    (c.store t ⟨false⟩).storage = c.storage ∧
    (c.store t ⟨false⟩).tempStorage = Storage.set c.tempStorage c.label t ∧
    (c.store t ⟨true⟩).label = c.label ∧
    (c.store t ⟨false⟩).label = c.label :=
  ⟨rfl, rfl, rfl, rfl, rfl, rfl⟩

/-- C10: logout deletes the stored token and clears the user record but
leaves the in-memory authToken cache and the event log unchanged;
consequently a store of T2 after storing T1 and logging out emits an
event whose old field is T1 rather than absent. -/
theorem C10_logout_cache (st : AuthState) (o1 o2 : LoginOptions) (t1 t2 : String) :
    (Auth.logout st).authToken = st.authToken ∧
    (Auth.logout st).events = st.events ∧
    (Auth.logout st).tokenContext = st.tokenContext.delete ∧
    (Auth.logout st).user = ⟨false, none⟩ ∧
    (Auth.logout (Auth.storeToken st o1 t1)).authToken = some t1 ∧
    (Auth.storeToken (Auth.logout (Auth.storeToken st o1 t1)) o2 t2).events
      = (Auth.logout (Auth.storeToken st o1 t1)).events
        ++ [⟨"auth:token-changed", some t1, some t2⟩] :=
  ⟨rfl, rfl, rfl, rfl, rfl, rfl⟩

/-- C1 counterexample: the url http://auth.ionic.io matches the expected
20-character redirect prefix, yet the handler neither detaches the
listeners nor calls close() nor resolves — the split of the undefined
query string throws first. -/
theorem C1_loadstart_counterexample :
    expectedUrlMatch "http://auth.ionic.io" = true ∧
    (onLoadStart "http://auth.ionic.io").closes = 0 ∧
    (onLoadStart "http://auth.ionic.io").removedExit = 0 ∧
    (onLoadStart "http://auth.ionic.io").removedLoadError = 0 ∧
    (onLoadStart "http://auth.ionic.io").outcome = LoadStartOutcome.crash := by
  decide

/-- C1 amended: for every loadstart event, a url matching the expected
redirect prefix that carries a query string resolves with the token
parameter value, detaches the exit and loaderror listeners exactly once
and calls close() exactly once; a matching url without a query string
makes the handler throw, settling nothing, detaching nothing and closing
nothing; a non-matching url rejects with the unexpected-url error and
neither closes the surface nor detaches listeners — only the matching
success path closes it. -/
theorem C1_loadstart (url : String) :
    (expectedUrlMatch url = true → hasQueryString url = true →
      onLoadStart url = ⟨1, 1, 1, .resolvedTok (tokenParamOf url)⟩) ∧
    (expectedUrlMatch url = true → hasQueryString url = false →
      onLoadStart url = ⟨0, 0, 0, .crash⟩) ∧
    (expectedUrlMatch url = false →
      onLoadStart url = ⟨0, 0, 0, .rejectedMsg "Unexpected url in API response"⟩) := by
  refine ⟨?_, ?_, ?_⟩
  · intro h1 h2
    cases hq : queryStringOf url with
    | none => simp [hasQueryString, hq] at h2
    | some qs => simp [onLoadStart, tokenParamOf, h1, hq]
  · intro h1 h2
    cases hq : queryStringOf url with
    | none => simp [onLoadStart, h1, hq]
    | some qs => simp [hasQueryString, hq] at h2
  · intro h1
    simp [onLoadStart, h1]

/-- C1 witness: a matching redirect url with query token=xyz resolves
xyz with one close and one detach of each listener; a non-matching url
rejects without closing. -/
theorem C1_loadstart_witness :
    onLoadStart "http://auth.ionic.io/cb?token=xyz&state=1"
      = ⟨1, 1, 1, .resolvedTok (some "xyz")⟩ ∧
    onLoadStart "https://example.com/cb?token=xyz"
      = ⟨0, 0, 0, .rejectedMsg "Unexpected url in API response"⟩ := by
  have h1 := (C1_loadstart "http://auth.ionic.io/cb?token=xyz&state=1").1
    (by decide) (by decide)
  have h2 := (C1_loadstart "https://example.com/cb?token=xyz").2.2 (by decide)
  refine ⟨?_, h2⟩
  rw [h1]
  decide

/-- C4: BasicAuth.authenticate with a missing or empty email or password
rejects immediately with the validation error and issues no request;
with both present it POSTs app id plus credentials to /auth/login and
settles from the transport result — the token field of a successful
response, or the transport error. -/
theorem C4_basic_authenticate (appId : String) (data : BasicLoginCredentials)
    (transport : Except String BasicResponse) :
    ((jsTruthy data.email = false ∨ jsTruthy data.password = false) →
      BasicAuth.authenticate appId data transport
        = (none, .rejected "email and password are required for basic authentication")) ∧
    (jsTruthy data.email = true → jsTruthy data.password = true →
      BasicAuth.authenticate appId data transport
        = (some ⟨"POST", "/auth/login",
             [("app_id", appId), ("email", jsStr data.email),
              ("password", jsStr data.password)]⟩,
           match transport with
           | .error err => .rejectedTransport err
           | .ok res => .resolved res.data.token)) := by
  constructor
  · intro h
    rcases h with h | h <;> simp [BasicAuth.authenticate, h]
  · intro h1 h2
    cases transport <;> simp [BasicAuth.authenticate, h1, h2]

/-- C4 witness: an empty email rejects with no request issued; good
credentials against a stub token abc resolve abc through the expected
POST. -/
theorem C4_basic_authenticate_witness :
    BasicAuth.authenticate "app" ⟨some "", some "x"⟩ (.ok ⟨⟨some "abc"⟩⟩)
      = (none, .rejected "email and password are required for basic authentication") ∧
    BasicAuth.authenticate "app" ⟨some "a@b.com", some "p"⟩ (.ok ⟨⟨some "abc"⟩⟩)
      = (some ⟨"POST", "/auth/login",
           [("app_id", "app"), ("email", "a@b.com"), ("password", "p")]⟩,
         .resolved (some "abc")) := by
  constructor
  · exact (C4_basic_authenticate "app" ⟨some "", some "x"⟩ (.ok ⟨⟨some "abc"⟩⟩)).1
      (Or.inl (by decide))
  · exact (C4_basic_authenticate "app" ⟨some "a@b.com", some "p"⟩ (.ok ⟨⟨some "abc"⟩⟩)).2
      (by decide) (by decide)

/-- C5 counterexample: after storing durable t1 and then the ephemeral
empty string for the same label, the ephemeral tier holds a value, yet
get returns t1 — the empty string is falsy under the JavaScript or, so
the claimed ephemeral-wins rule fails for it. -/
theorem C5_get_counterexample :
    (((CombinedAuthTokenContext.empty "token").store "t1" ⟨true⟩).store "" ⟨false⟩).tempStorage
        "token" = some "" ∧
    (((CombinedAuthTokenContext.empty "token").store "t1" ⟨true⟩).store "" ⟨false⟩).get
      = some "t1" ∧
    (some "t1" : Option String) ≠ some "" := by
  refine ⟨by decide, by decide, by decide⟩

/-- C5 amended: get returns the ephemeral value when it is present and
truthy (non-empty), otherwise the durable value as stored (an absent or
empty ephemeral value falls through); in particular storing durable t1
then ephemeral t2 for the same label yields t2 whenever t2 is
non-empty. -/
theorem C5_get (c : CombinedAuthTokenContext) (t1 t2 : String) :
    (jsTruthy (c.tempStorage c.label) = true → c.get = c.tempStorage c.label) ∧
    (jsTruthy (c.tempStorage c.label) = false → c.get = c.storage c.label) ∧
    (t2 ≠ "" → ((c.store t1 ⟨true⟩).store t2 ⟨false⟩).get = some t2) := by
  refine ⟨?_, ?_, ?_⟩
  · intro h
    simp [CombinedAuthTokenContext.get, jsOr, h]
  · intro h
    simp [CombinedAuthTokenContext.get, jsOr, h]
  · intro h
    simp [CombinedAuthTokenContext.get, CombinedAuthTokenContext.store, Storage.set,
      jsOr, jsTruthy, h]

/-- C5 witness: a truthy ephemeral value wins, an empty context reads
its durable tier, and durable t1 then ephemeral t2 yields t2. -/
theorem C5_get_witness :
    ((CombinedAuthTokenContext.empty "tk").store "e" ⟨false⟩).get
      = ((CombinedAuthTokenContext.empty "tk").store "e" ⟨false⟩).tempStorage "tk" ∧
    (CombinedAuthTokenContext.empty "tk").get
      = (CombinedAuthTokenContext.empty "tk").storage "tk" ∧
    (((CombinedAuthTokenContext.empty "tk").store "t1" ⟨true⟩).store "t2" ⟨false⟩).get
      = some "t2" := by
  refine ⟨?_, ?_, ?_⟩
  · exact (C5_get ((CombinedAuthTokenContext.empty "tk").store "e" ⟨false⟩) "" "").1
      (by decide)
  · exact (C5_get (CombinedAuthTokenContext.empty "tk") "" "").2.1 (by decide)
  · exact (C5_get (CombinedAuthTokenContext.empty "tk") "t1" "t2").2.2 (by decide)

/-- C8 counterexample: a response whose body and error objects are
present but whose details field is absent makes the try-block
assignment succeed with undefined, and the for-loop bound then throws
an uncaught TypeError — the function propagates a parsing failure for
that malformed shape instead of yielding the empty-code-list structured
error. -/
theorem C8_detailed_error_counterexample :
    Auth.getDetailedErrorFromResponse (some ⟨some ⟨some ⟨none⟩⟩⟩)
      = DetailedErrorResult.thrown ∧
    DetailedErrorResult.thrown
      ≠ DetailedErrorResult.returned ⟨"Error creating user", []⟩ := by
  refine ⟨rfl, by decide⟩

/-- C8 amended: the extraction turns the well-formed details list with
error_type required and parameter email into exactly the code list
required_email; when any level of the res.body.error path is absent,
the try/catch catches the access error and the structured error with an
empty code list is returned; but when the path is fully present and the
details field itself is undefined, the assignment succeeds and the
subsequent length read throws an uncaught TypeError, so a parsing
failure is propagated for exactly that shape. -/
theorem C8_detailed_error (res : Option JsResponse) :
    Auth.getDetailedErrorFromResponse
        (some ⟨some ⟨some ⟨some [⟨some "required", some "email"⟩]⟩⟩⟩)
      = .returned ⟨"Error creating user", ["required_email"]⟩ ∧
    (detailsAccess res = .caught →
      Auth.getDetailedErrorFromResponse res = .returned ⟨"Error creating user", []⟩) ∧
    (detailsAccess res = .assigned none →
      Auth.getDetailedErrorFromResponse res = .thrown) := by
  refine ⟨rfl, ?_, ?_⟩
  · intro h
    unfold Auth.getDetailedErrorFromResponse
    rw [h]
  · intro h
    unfold Auth.getDetailedErrorFromResponse
    rw [h]

/-- C8 witness: a wholly absent response yields the empty-code-list
structured error through the caught branch, while a present error
object without a details field throws. -/
theorem C8_detailed_error_witness :
    Auth.getDetailedErrorFromResponse none
      = DetailedErrorResult.returned ⟨"Error creating user", []⟩ ∧
    Auth.getDetailedErrorFromResponse (some ⟨some ⟨some ⟨none⟩⟩⟩)
      = DetailedErrorResult.thrown :=
  ⟨(C8_detailed_error none).2.1 rfl,
   (C8_detailed_error (some ⟨some ⟨some ⟨none⟩⟩⟩)).2.2 rfl⟩

/-- C9: isAuthenticated is true exactly when the combined context yields
a non-empty token — a pure presence check on the state, with no server
interaction — and a stored empty-string token yields false. -/
theorem C9_isAuthenticated (st : AuthState) :
    (Auth.isAuthenticated st = true ↔ ∃ s, st.tokenContext.get = some s ∧ s ≠ "") ∧
    Auth.isAuthenticated
      { st with tokenContext := (CombinedAuthTokenContext.empty "token").store "" ⟨true⟩ }
      = false := by
  constructor
  · unfold Auth.isAuthenticated
    cases hg : st.tokenContext.get with
    | none => simp [jsTruthy, hg]
    | some s => simp [jsTruthy, hg]
  · rfl

/-- C9 witness: with a durable token tok stored, isAuthenticated holds. -/
theorem C9_isAuthenticated_witness :
    Auth.isAuthenticated
      { emptyAuthState with
        tokenContext := (CombinedAuthTokenContext.empty "token").store "tok" ⟨true⟩ }
      = true :=
  (C9_isAuthenticated { emptyAuthState with
    tokenContext := (CombinedAuthTokenContext.empty "token").store "tok" ⟨true⟩ }).1.mpr
    ⟨"tok", by decide, by decide⟩
